import Mathlib

/-!
Shallow embedding of `src/main.py` of the uno-cards repository.

Conventions used throughout:
* Python `int` is modelled as `Int` (with `Int.emod`, which agrees with
  Python `%` for a positive divisor); list indices produced by `% len`
  are non-negative, so indexing uses `Int.toNat` with `List.getD`.
* Python strings are modelled as `String`; the character-level operations
  of `parse_border_color` (strip, slicing, `int(…)` parsing) are modelled
  on `List Char` (`String.data`), matching Python's per-character view.
* A Python function that can raise inside the modelled fragment returns
  `Option` (`none` = exception), e.g. the `assert` in `build_uno_deck`
  and the `KeyError` lookup in `COLOR_THEME`.
* `random.choice items` is modelled by an explicit `pick : Nat` argument
  selecting `items[pick % len items]`; every non-wild branch ignores it.
-/

namespace Uno

/-- The `Card` dataclass of `main.py`: `color`, `kind`,
`value` (only for number cards, `None` otherwise) and `copy_index`. -/
structure Card where
  color : String
  kind : String
  value : Option Int := none
  copy_index : Int := 1
deriving DecidableEq

/-- The fixed color order `["red", "yellow", "green", "blue"]` used by
`build_uno_deck`. -/
def colors : List String := ["red", "yellow", "green", "blue"]

/-- The card list built by `build_uno_deck` before its `assert`:
zeros (one per color), numbers 1–9 (two copies per color),
action cards skip/reverse/draw2 (two copies per color),
then wild and wild_draw4 (four copies each), in source order. -/
def build_uno_deck_cards : List Card :=
  (colors.map (fun c => { color := c, kind := "number", value := some 0, copy_index := 1 }))
  ++ (colors.flatMap (fun c => (List.range' 1 9).flatMap (fun n =>
      [{ color := c, kind := "number", value := some (n : Int), copy_index := 1 },
       { color := c, kind := "number", value := some (n : Int), copy_index := 2 }])))
  ++ (colors.flatMap (fun c => ([1, 2] : List Int).flatMap (fun i =>
      [{ color := c, kind := "skip", copy_index := i },
       { color := c, kind := "reverse", copy_index := i },
       { color := c, kind := "draw2", copy_index := i }])))
  ++ (((List.range' 1 4).map (fun n => (n : Int))).flatMap (fun i =>
      [{ color := "wild", kind := "wild", copy_index := i },
       { color := "wild", kind := "wild_draw4", copy_index := i }]))

/-- `build_uno_deck` including its `assert len(deck) == 108`:
`none` models the `AssertionError` path. -/
def build_uno_deck : Option (List Card) :=
  if build_uno_deck_cards.length = 108 then some build_uno_deck_cards else none

/-- The `COLOR_THEME` dictionary: color → (theme title, concept list).
`none` models a `KeyError` on an unknown color. -/
def COLOR_THEME : String → Option (String × List String)
  | "red" => some ("Stories of Jesus",
      ["Jesus welcoming children in a sunny park",
       "Sermon on the Mount with smiling crowd",
       "Calming the storm gently while disciples watch",
       "Feeding the five thousand with bread and fish",
       "Walking on water in a peaceful sea scene",
       "Healing a child with kind smile, indoors",
       "Nativity with baby in manger and friendly animals",
       "Good Shepherd carrying a lamb on green hills",
       "Calling the disciples by the seaside",
       "Triumphal entry with children waving branches"])
  | "yellow" => some ("Old Testament heroes",
      ["Moses parting the Red Sea, joyful style",
       "David with sling facing Goliath playfully",
       "Noah with animals near a bright rainbow",
       "Abraham looking at stars with Isaac",
       "Joseph with colorful coat smiling",
       "Jonah near a big friendly fish",
       "Daniel in the lions’ den with cuddly lions",
       "Queen Esther brave before the king",
       "Ruth gathering wheat joyfully",
       "Young Samuel listening to God at night"])
  | "green" => some ("Parables of Jesus",
      ["Good Samaritan helping traveler on the road",
       "Wise and foolish builders, sun vs. rain",
       "Lost sheep found by smiling shepherd",
       "Mustard seed growing into a tree with birds",
       "Prodigal son hugged by his father happily",
       "Ten bridesmaids with glowing lamps",
       "Hidden treasure found in a field",
       "Pearl of great price in hands",
       "Sower scattering seeds with sprouts",
       "Vine and branches full of fruit"])
  | "blue" => some ("Miracles & key moments",
      ["Multiplication of loaves picnic scene",
       "Healing of a blind man with happy crowd",
       "Raising Jairus’s daughter gently",
       "Cleansing of a leper with gratitude",
       "Paralytic lowered through roof playfully",
       "Water turned into wine at Cana",
       "Miraculous catch of fish with nets",
       "Mary and Martha welcoming Jesus",
       "Zacchaeus waving from a tree branch",
       "Peter rescued from sinking, gentle help"])
  | "wild" => some ("Great moments of the Bible",
      ["Creation with sun, moon and smiling animals",
       "Empty tomb at sunrise, hopeful scene",
       "Pentecost with friendly flames above people",
       "Shining New Jerusalem with the river of life",
       "Ark of the Covenant stylized and bright",
       "Burning bush with warm glow",
       "Jacob’s ladder with playful angels",
       "Baptism in the Jordan, peaceful waters"])
  | _ => none

/-- `concept_for_card`. The `pick` argument models the otherwise-unused
`random.choice` draw on the wild branch (`items[pick % len items]`);
all other branches ignore it, exactly as in the source, where the wild
branch returns `random.choice(COLOR_THEME["wild"][1])`, the
`kind == "number" and value is not None` branch returns
`theme_items[value % len(theme_items)]`, and every remaining card
returns `theme_items[copy_index % len(theme_items)]`. -/
def concept_for_card (pick : Nat) (card : Card) : Option String :=
  if card.color = "wild" then
    match COLOR_THEME "wild" with
    | some t => some (t.2.getD (pick % t.2.length) "")
    | none => none
  else
    match COLOR_THEME card.color with
    | none => none
    | some t =>
      let theme_items := t.2
      if card.kind = "number" then
        match card.value with
        | some v => some (theme_items.getD (v.emod (theme_items.length : Int)).toNat "")
        | none => some (theme_items.getD (card.copy_index.emod (theme_items.length : Int)).toNat "")
      else
        some (theme_items.getD (card.copy_index.emod (theme_items.length : Int)).toNat "")

/-- Python `str.strip()` on the character list of a string (whitespace
removed from both ends). -/
def pyStrip (cs : List Char) : List Char :=
  (((cs.dropWhile Char.isWhitespace).reverse).dropWhile Char.isWhitespace).reverse

/-- Python `str.split(",")`: split on every comma; the empty string
splits to `[""]`. -/
def splitOnComma : List Char → List (List Char)
  | [] => [[]]
  | c :: rest =>
    if c = ',' then [] :: splitOnComma rest
    else
      match splitOnComma rest with
      | h :: tl => (c :: h) :: tl
      | [] => [[c]]

/-- Characters accepted as digits by Python `int(s, 16)`. -/
def isHexDigitChar (c : Char) : Bool :=
  c.isDigit || ('a' ≤ c && c ≤ 'f') || ('A' ≤ c && c ≤ 'F')

/-- Numeric value of a (decimal or hex) digit character. -/
def digitVal (c : Char) : Nat :=
  if c.isDigit then c.toNat - '0'.toNat
  else if 'a' ≤ c && c ≤ 'f' then c.toNat - 'a'.toNat + 10
  else c.toNat - 'A'.toNat + 10

/-- Tail of a Python digit run: after a digit, an underscore must be
followed by another digit (no trailing or doubled underscores). -/
def validDigitRunTail (isD : Char → Bool) : List Char → Bool
  | [] => true
  | c :: rest =>
    if c = '_' then
      match rest with
      | [] => false
      | d :: rest2 => isD d && validDigitRunTail isD rest2
    else
      isD c && validDigitRunTail isD rest

/-- A Python digit run: non-empty, starts with a digit, underscores only
between digits. -/
def validDigitRun (isD : Char → Bool) : List Char → Bool
  | [] => false
  | c :: rest => isD c && validDigitRunTail isD rest

/-- Value of a digit run in the given base, skipping grouping
underscores. -/
def digitRunValue (base : Nat) (cs : List Char) : Nat :=
  cs.foldl (fun acc c => if c = '_' then acc else acc * base + digitVal c) 0

/-- Unsigned part of Python `int(s)` (base 10): a digit run. -/
def pyIntDecCore (cs : List Char) : Option Nat :=
  if validDigitRun Char.isDigit cs then some (digitRunValue 10 cs) else none

/-- Unsigned part of Python `int(s, 16)`: an optional `0x`/`0X` prefix
(an underscore may directly follow the prefix), then a hex digit run. -/
def pyIntHexCore (cs : List Char) : Option Nat :=
  let body :=
    match cs with
    | c0 :: c1 :: rest =>
      if c0 = '0' && (c1 = 'x' || c1 = 'X') then
        match rest with
        | u :: rest2 => if u = '_' then rest2 else rest
        | [] => rest
      else cs
    | _ => cs
  if validDigitRun isHexDigitChar body then some (digitRunValue 16 body) else none

/-- Sign handling shared by Python `int(s)` and `int(s, 16)`: strip
whitespace, then an optional single `+`/`-`, then the unsigned core. -/
def pyIntSigned (core : List Char → Option Nat) (cs : List Char) : Option Int :=
  match pyStrip cs with
  | [] => none
  | c :: rest =>
    if c = '-' then (core rest).map (fun n => -(n : Int))
    else if c = '+' then (core rest).map (fun n => (n : Int))
    else (core (c :: rest)).map (fun n => (n : Int))

/-- Python `int(s)` on a character list; `none` models `ValueError`. -/
def pyIntDec (cs : List Char) : Option Int := pyIntSigned pyIntDecCore cs

/-- Python `int(s, 16)` on a character list; `none` models
`ValueError`. -/
def pyIntHex (cs : List Char) : Option Int := pyIntSigned pyIntHexCore cs

/-- The hex branch of `parse_border_color`: the tuple succeeds only when
all three slices parse; any `ValueError` is caught by the bare `except`,
which returns black. -/
def rgb_of_hex (r g b : Option Int) : Int × Int × Int :=
  match r, g, b with
  | some r, some g, some b => (r, g, b)
  | _, _, _ => (0, 0, 0)

/-- The `r, g, b = map(int, color_str.split(","))` branch: exactly three
comma-separated parts, each a valid integer literal, else the bare
`except` returns black. -/
def rgb_triple_of (parts : List (Option Int)) : Int × Int × Int :=
  match parts with
  | [some r, some g, some b] => (r, g, b)
  | _ => (0, 0, 0)

/-- `parse_border_color`: strip, then either the `#`-hex branch
(3-digit forms doubled to 6, then `int(hex[i:i+2], 16)` for
`i = 0, 2, 4`) or the comma-triple branch; every exception path of the
`try` yields `(0, 0, 0)`. -/
def parse_border_color (color_str : String) : Int × Int × Int :=
  let t := pyStrip color_str.data
  match t with
  | c :: rest =>
    if c = '#' then
      let hex0 := rest
      let hex := if hex0.length = 3 then hex0.flatMap (fun ch => [ch, ch]) else hex0
      rgb_of_hex (pyIntHex (hex.take 2)) (pyIntHex ((hex.drop 2).take 2))
        (pyIntHex ((hex.drop 4).take 2))
    else
      rgb_triple_of ((splitOnComma t).map pyIntDec)
  | [] => rgb_triple_of ((splitOnComma t).map pyIntDec)

/-- Inputs on which the `try` body of `parse_border_color` completes
without raising: either the hex branch with all three slices valid hex
literals, or a comma-split into exactly three valid integer literals. -/
def border_color_parseable (s : String) : Bool :=
  let t := pyStrip s.data
  match t with
  | c :: rest =>
    if c = '#' then
      let hex0 := rest
      let hex := if hex0.length = 3 then hex0.flatMap (fun ch => [ch, ch]) else hex0
      (pyIntHex (hex.take 2)).isSome && (pyIntHex ((hex.drop 2).take 2)).isSome
        && (pyIntHex ((hex.drop 4).take 2)).isSome
    else
      ((splitOnComma t).map pyIntDec).length = 3
        && ((splitOnComma t).map pyIntDec).all Option.isSome
  | [] =>
    ((splitOnComma t).map pyIntDec).length = 3
      && ((splitOnComma t).map pyIntDec).all Option.isSome

/-- Modelled from the spec: a "well-formed border color" in the spec's
sense — a valid hex `#rgb`/`#rrggbb` form, or a `r,g,b` triple of
integers each in 0–255. Used only to compare the spec's claim with the
code's actual lenient behaviour. -/
def spec_wellformed_border (s : String) : Bool :=
  let t := pyStrip s.data
  match t with
  | c :: rest =>
    if c = '#' then
      (rest.length = 3 || rest.length = 6) && rest.all isHexDigitChar
    else
      match (splitOnComma t).map pyIntDec with
      | [some r, some g, some b] =>
        decide (0 ≤ r) && decide (r ≤ 255) && decide (0 ≤ g) && decide (g ≤ 255)
          && decide (0 ≤ b) && decide (b ≤ 255)
      | _ => false
  | [] => false

/-- `filename_for`: `"{color}_{kind}"`, then `"_{value}"` when the kind is
`number` (Python would print `None` for a missing value), then
`"-x{copy_index}.png"`. -/
def filename_for (card : Card) : String :=
  let base := card.color ++ "_" ++ card.kind
  let base := if card.kind = "number" then
      base ++ "_" ++ (match card.value with | some v => toString v | none => "None")
    else base
  (base ++ "-x" ++ toString card.copy_index) ++ ".png"

/-- The request sent by `gen_image_from_openai` via
`client.images.generate(model=…, prompt=…, size=…)`. -/
structure ImageRequest where
  model : String
  prompt : String
  size : String
deriving DecidableEq

/-- Module-level `openai_model = os.getenv("OPENAI_IMAGE_MODEL", "gpt-image-1")`,
with the environment modelled as a partial map. -/
def openai_model (env : String → Option String) : String :=
  (env "OPENAI_IMAGE_MODEL").getD "gpt-image-1"

/-- Module-level `openai_size = os.getenv("OPENAI_IMAGE_SIZE", "1024x1792")`. -/
def openai_size (env : String → Option String) : String :=
  (env "OPENAI_IMAGE_SIZE").getD "1024x1792"

/-- The request built inside `gen_image_from_openai(prompt, size)`: the
`model` field is the string literal `"gpt-image-1"`, not the
module-level `openai_model`. -/
def gen_image_from_openai_request (prompt size : String) : ImageRequest :=
  { model := "gpt-image-1", prompt := prompt, size := size }

/-- Default value of the `size` parameter of `gen_image_from_openai`. -/
def gen_image_from_openai_default_size : String := "1024x1024"

/-- The request issued per card by `generate_all_cards`, which calls
`gen_image_from_openai(prompt)` with no `size` argument, so the
parameter default (not `openai_size`) is used. -/
def generate_request_for_prompt (prompt : String) : ImageRequest :=
  gen_image_from_openai_request prompt gen_image_from_openai_default_size

/-- Filenames written by the `for card in deck` loop of
`generate_all_cards` (one `filename_for card` per iteration, in order),
with the `break` taken after the first card when
`generate_first_only` is set. The test-mode flag only selects the art
source and never affects the written names, so it is not a parameter. -/
def saved_filenames (generate_first_only : Bool) : List Card → List String
  | [] => []
  | card :: rest =>
    filename_for card ::
      (if generate_first_only then [] else saved_filenames generate_first_only rest)

/-- `generate_all_cards` restricted to its observable file writes: the
ordered filenames it saves (`none` models the deck assertion failing). -/
def generate_all_cards (generate_first_only : Bool) : Option (List String) :=
  build_uno_deck.map (saved_filenames generate_first_only)

/-! Page-composer geometry of `images_to_pdf`, over `ℚ` (the Python
computation is IEEE double arithmetic on the same expressions; the
rational values are the exact real-number results, which is the
intended reading of the spec's "within rounding tolerance"). -/

/-- `reportlab.lib.units.inch = 72.0`. -/
def inch : ℚ := 72

/-- `reportlab.lib.units.cm = inch / 2.54`. -/
def cm : ℚ := inch / (254 / 100)

/-- `reportlab.lib.units.mm = cm * 0.1`. -/
def mm : ℚ := cm * (1 / 10)

/-- A4 page width `210*mm`, the `pw` of `images_to_pdf`. -/
def pw : ℚ := 210 * mm

/-- A4 page height `297*mm`, the `ph` of `images_to_pdf`. -/
def ph : ℚ := 297 * mm

/-- `cards_per_row = 3`. -/
def cards_per_row : Nat := 3

/-- `cards_per_column = 3`. -/
def cards_per_column : Nat := 3

/-- `cards_per_page = cards_per_row * cards_per_column`. -/
def cards_per_page : Nat := cards_per_row * cards_per_column

/-- `margin = pw * 0.02`. -/
def margin : ℚ := pw * (2 / 100)

/-- `spacing = pw * 0.015`. -/
def spacing : ℚ := pw * (15 / 1000)

/-- `available_width = pw - 2*margin - 2*spacing`. -/
def available_width : ℚ := pw - 2 * margin - 2 * spacing

/-- `available_height = ph - 2*margin - 2*spacing`. -/
def available_height : ℚ := ph - 2 * margin - 2 * spacing

/-- Initial `card_width = available_width / cards_per_row` (before the
aspect-ratio adjustment overwrites it). -/
def card_width_initial : ℚ := available_width / (cards_per_row : ℚ)

/-- Initial `card_height = available_height / cards_per_column`. -/
def card_height_initial : ℚ := available_height / (cards_per_column : ℚ)

/-- `target_aspect = 825 / 1275` (the unscaled `CARD_W / CARD_H`). -/
def target_aspect : ℚ := 825 / 1275

/-- `current_aspect = card_width / card_height` at the time of the
comparison. -/
def current_aspect : ℚ := card_width_initial / card_height_initial

/-- Final `card_width`: shrunk to `card_height * target_aspect` when the
candidate cell is too wide, else unchanged. -/
def card_width : ℚ :=
  if current_aspect > target_aspect then card_height_initial * target_aspect
  else card_width_initial

/-- Final `card_height`: unchanged when the candidate cell is too wide,
else shrunk to `card_width / target_aspect`. -/
def card_height : ℚ :=
  if current_aspect > target_aspect then card_height_initial
  else card_width_initial / target_aspect

/-- `total_width = cards_per_row * card_width`. -/
def total_width : ℚ := (cards_per_row : ℚ) * card_width

/-- `total_height = cards_per_column * card_height`. -/
def total_height : ℚ := (cards_per_column : ℚ) * card_height

/-- `spacing_horizontal = (pw - total_width) / (cards_per_row + 1)`. -/
def spacing_horizontal : ℚ := (pw - total_width) / ((cards_per_row : ℚ) + 1)

/-- `spacing_vertical = (ph - total_height) / (cards_per_column + 1)`. -/
def spacing_vertical : ℚ := (ph - total_height) / ((cards_per_column : ℚ) + 1)

/-- `card_index_in_page = i % cards_per_page` for the `i`-th image
(0-indexed) of the loop. -/
def card_index_in_page (i : Nat) : Nat := i % cards_per_page

/-- `row = card_index_in_page // cards_per_row`. -/
def row (i : Nat) : Nat := card_index_in_page i / cards_per_row

/-- `col = card_index_in_page % cards_per_row`. -/
def col (i : Nat) : Nat := card_index_in_page i % cards_per_row

/-- The drawn x-coordinate `x = (col + 1) * spacing_horizontal + col * card_width`
as a function of the column. -/
def cell_x (c : Nat) : ℚ := ((c : ℚ) + 1) * spacing_horizontal + (c : ℚ) * card_width

/-- The drawn y-coordinate
`y = ph - ((row + 1) * spacing_vertical + (row + 1) * card_height)`
as a function of the row (PDF coordinates grow upward from the page
bottom). -/
def cell_y (r : Nat) : ℚ :=
  ph - (((r : ℚ) + 1) * spacing_vertical + ((r : ℚ) + 1) * card_height)

/-- The `c.showPage()` guard: a new page starts right after image `i`
iff `(i + 1) % cards_per_page == 0 and i + 1 < len(image_paths)`. -/
def showPageAfter (i n : Nat) : Bool :=
  decide ((i + 1) % cards_per_page = 0) && decide (i + 1 < n)

/-- Number of pages of the produced PDF for `n ≥ 1` images: one page per
`showPage` call plus the final page emitted by `c.save()`. -/
def num_pages (n : Nat) : Nat :=
  1 + ((List.range n).filter (fun i => showPageAfter i n)).length

/-- 0-indexed page on which image `i` of `n` is drawn: the number of
`showPage` calls before iteration `i`. -/
def page_of (i n : Nat) : Nat :=
  ((List.range i).filter (fun j => showPageAfter j n)).length

/-- Modelled from the spec: the documented filename pattern
`{color}_{kind}[_{value}]-x{copy_index}.png`, the value part present
exactly for number cards. Used to compare `filename_for` against the
spec's wording. -/
def spec_filename_pattern (c : Card) : String :=
  c.color ++ "_" ++ c.kind
    ++ (if c.kind = "number" then
          (match c.value with | some v => "_" ++ toString v | none => "")
        else "")
    ++ "-x" ++ toString c.copy_index ++ ".png"

/-- A sample environment that configures a non-default model and size,
used to exhibit that the configured values never reach the request. -/
def example_env : String → Option String := fun k =>
  if k = "OPENAI_IMAGE_MODEL" then some "dall-e-3"
  else if k = "OPENAI_IMAGE_SIZE" then some "512x512"
  else none

/-! Theorems. -/

theorem aspect_branch_too_wide : current_aspect > target_aspect := by
  norm_num [current_aspect, target_aspect, card_width_initial, card_height_initial,
    available_width, available_height, margin, spacing, pw, ph, mm, cm, inch,
    cards_per_row, cards_per_column]

theorem pw_val : pw = 75600 / 127 := by norm_num [pw, mm, cm, inch]

theorem ph_val : ph = 106920 / 127 := by norm_num [ph, mm, cm, inch]

theorem margin_val : margin = 1512 / 127 := by norm_num [margin, pw, mm, cm, inch]

theorem card_width_initial_val : card_width_initial = 23436 / 127 := by
  norm_num [card_width_initial, available_width, margin, spacing, pw, mm, cm, inch,
    cards_per_row]

theorem card_height_initial_val : card_height_initial = 33876 / 127 := by
  norm_num [card_height_initial, available_height, margin, spacing, pw, ph, mm, cm, inch,
    cards_per_column]

theorem card_width_val : card_width = 372636 / 2159 := by
  rw [card_width, if_pos aspect_branch_too_wide, card_height_initial_val]
  norm_num [target_aspect]

theorem card_height_val : card_height = 33876 / 127 := by
  rw [card_height, if_pos aspect_branch_too_wide, card_height_initial_val]

theorem spacing_horizontal_val : spacing_horizontal = 41823 / 2159 := by
  rw [spacing_horizontal, total_width, card_width_val, pw_val]
  norm_num [cards_per_row]

theorem spacing_vertical_val : spacing_vertical = 1323 / 127 := by
  rw [spacing_vertical, total_height, card_height_val, ph_val]
  norm_num [cards_per_column]

/-- C4: the page composer places image `i` at row `(i % 9) / 3` and
column `(i % 9) % 3`; the drawn y-coordinate is a bottom-origin
coordinate (rows descend from the top, every cell lies inside the
page); `showPage` fires exactly after images 8, 17, …, 98 — after every
9th image except the last — so 108 images make `1 + 11 = 12` pages;
images 0–8 are exactly page one (so index 8 is its last) and images
9–17 exactly page two (so index 9 is its first). -/
theorem images_to_pdf_grid_and_pagination :
    (∀ i : Nat, row i = (i % 9) / 3 ∧ col i = (i % 9) % 3)
    ∧ (cell_y 2 < cell_y 1 ∧ cell_y 1 < cell_y 0 ∧ 0 ≤ cell_y 2
        ∧ cell_y 0 + card_height ≤ ph)
    ∧ ((List.range 108).filter (fun i => showPageAfter i 108)
        = (List.range 11).map (fun k => 9 * k + 8))
    ∧ num_pages 108 = 12
    ∧ ((List.range 108).filter (fun i => page_of i 108 == 0) = List.range 9)
    ∧ ((List.range 108).filter (fun i => page_of i 108 == 1) = List.range' 9 9)
    ∧ page_of 8 108 = 0 ∧ page_of 9 108 = 1 := by
  refine ⟨fun i => ⟨rfl, rfl⟩, ?_, by decide, by decide, by decide, by decide,
    by decide, by decide⟩
  rw [ph_val, card_height_val]
  norm_num [cell_y, spacing_vertical_val, card_height_val, ph_val]

/-- C5: after the candidate cell size is derived, the cell is locked to
the canonical 825:1275 aspect ratio by shrinking the overflowing
dimension (here the width; neither dimension ever grows), and the
recomputed spacings make the four horizontal and four vertical gaps
around the 3×3 block all equal (so the block is evenly distributed and
centered); the final gaps differ from the initial `margin`, which plays
no further role in placement. -/
theorem images_to_pdf_cell_aspect_and_centering :
    card_width / card_height = 825 / 1275
    ∧ card_width ≤ card_width_initial ∧ card_height ≤ card_height_initial
    ∧ cell_x 0 = spacing_horizontal
    ∧ cell_x 1 - (cell_x 0 + card_width) = spacing_horizontal
    ∧ cell_x 2 - (cell_x 1 + card_width) = spacing_horizontal
    ∧ pw - (cell_x 2 + card_width) = spacing_horizontal
    ∧ cell_y 2 = spacing_vertical
    ∧ cell_y 1 - (cell_y 2 + card_height) = spacing_vertical
    ∧ cell_y 0 - (cell_y 1 + card_height) = spacing_vertical
    ∧ ph - (cell_y 0 + card_height) = spacing_vertical
    ∧ spacing_horizontal ≠ margin ∧ spacing_vertical ≠ margin := by
  norm_num [cell_x, cell_y, card_width_val, card_height_val, card_width_initial_val,
    card_height_initial_val, spacing_horizontal_val, spacing_vertical_val, pw_val,
    ph_val, margin_val]

/-- C1: `build_uno_deck` passes its `assert` and returns the 108-card
list with the canonical distribution — per color one zero, two of each
value 1–9 and two each of skip/reverse/draw2, plus four wild and four
wild_draw4 — laid out in the fixed order zeros (positions 0–3), numbers
1–9 (4–75), action cards (76–99), wilds (100–107). -/
theorem build_uno_deck_canonical :
    build_uno_deck = some build_uno_deck_cards
    ∧ build_uno_deck_cards.length = 108
    ∧ (colors.all (fun col => build_uno_deck_cards.countP
        (fun c => c.color == col && c.kind == "number" && c.value == some 0) == 1)) = true
    ∧ build_uno_deck_cards.countP
        (fun c => c.kind == "number" && c.value == some 0) = 4
    ∧ (colors.all (fun col => (List.range' 1 9).all (fun v =>
        build_uno_deck_cards.countP (fun c => c.color == col && c.kind == "number"
          && c.value == some (v : Int)) == 2))) = true
    ∧ build_uno_deck_cards.countP
        (fun c => c.kind == "number" && c.value != some 0) = 72
    ∧ (colors.all (fun col => ["skip", "reverse", "draw2"].all (fun k =>
        build_uno_deck_cards.countP
          (fun c => c.color == col && c.kind == k) == 2))) = true
    ∧ build_uno_deck_cards.countP
        (fun c => c.kind == "skip" || c.kind == "reverse" || c.kind == "draw2") = 24
    ∧ build_uno_deck_cards.countP (fun c => c.kind == "wild") = 4
    ∧ build_uno_deck_cards.countP (fun c => c.kind == "wild_draw4") = 4
    ∧ ((build_uno_deck_cards.take 4).all
        (fun c => c.kind == "number" && c.value == some 0)) = true
    ∧ (((build_uno_deck_cards.drop 4).take 72).all (fun c => c.kind == "number"
        && (c.value.getD 0) ≥ 1 && (c.value.getD 0) ≤ 9)) = true
    ∧ (((build_uno_deck_cards.drop 76).take 24).all
        (fun c => c.kind == "skip" || c.kind == "reverse" || c.kind == "draw2")) = true
    ∧ ((build_uno_deck_cards.drop 100).all
        (fun c => c.color == "wild" && (c.kind == "wild" || c.kind == "wild_draw4"))) = true := by
  decide

/-- C3: `filename_for` is injective on the generated deck (the 108
filenames are pairwise distinct), every deck card's filename equals the
spec pattern `{color}_{kind}[_{value}]-x{copy_index}.png`, and it
literally contains the card's color, kind, copy-index marker and — for
number cards — value. -/
theorem filename_for_injective_on_deck_and_patterned :
    (build_uno_deck_cards.map filename_for).Nodup
    ∧ (build_uno_deck_cards.all
        (fun c => filename_for c == spec_filename_pattern c)) = true
    ∧ (build_uno_deck_cards.all (fun c =>
        decide (c.color.data <:+: (filename_for c).data)
        && decide (c.kind.data <:+: (filename_for c).data)
        && decide (("-x" ++ toString c.copy_index).data <:+: (filename_for c).data)
        && (c.kind != "number"
            || decide (("_" ++ toString (c.value.getD 0)).data
                <:+: (filename_for c).data)))) = true := by
  refine ⟨by decide, by decide, by decide⟩

/-- C6: the four spec test vectors of `parse_border_color` evaluate as
documented, with no error path taken. -/
theorem parse_border_color_spec_vectors :
    parse_border_color "#fff" = (255, 255, 255)
    ∧ parse_border_color "#112233" = (17, 34, 51)
    ∧ parse_border_color "10,20,30" = (10, 20, 30)
    ∧ parse_border_color "not-a-color" = (0, 0, 0) := by
  refine ⟨by decide, by decide, by decide, by decide⟩

/-- C7 counterexample: `"300,0,0"` is not a well-formed border color in
the spec's sense (300 is outside 0–255), yet `parse_border_color`
returns `(300, 0, 0)`, not black. -/
theorem parse_border_color_out_of_range_not_black :
    spec_wellformed_border "300,0,0" = false
    ∧ parse_border_color "300,0,0" = (300, 0, 0)
    ∧ ((300, 0, 0) : Int × Int × Int) ≠ ((0, 0, 0) : Int × Int × Int) := by
  refine ⟨by decide, by decide, by decide⟩

theorem rgb_of_hex_black_of_invalid :
    ∀ a b c : Option Int, (a.isSome && b.isSome && c.isSome) = false →
      rgb_of_hex a b c = (0, 0, 0)
  | none, _, _, _ => rfl
  | some _, none, _, _ => rfl
  | some _, some _, none, _ => rfl
  | some _, some _, some _, h => by simp at h

theorem rgb_triple_of_black_of_invalid :
    ∀ L : List (Option Int),
      ¬(L.length = 3 ∧ L.all Option.isSome = true) → rgb_triple_of L = (0, 0, 0)
  | [], _ => rfl
  | none :: _, _ => rfl
  | [some _], _ => rfl
  | some _ :: none :: _, _ => rfl
  | [some _, some _], _ => rfl
  | some _ :: some _ :: none :: _, _ => rfl
  | [some _, some _, some _], h => absurd ⟨rfl, rfl⟩ h
  | some _ :: some _ :: some _ :: _ :: _, _ => rfl

/-- C7 as amended: whenever the lenient parse fails — the hex branch
with some 2-character slice not a hex literal, or the other branch not
comma-splitting into exactly three integer literals —
`parse_border_color` returns black `(0, 0, 0)`; syntactically parseable
inputs are returned as-is, with no 0–255 range validation. -/
theorem parse_border_color_black_on_unparseable (s : String)
    (h : border_color_parseable s = false) : parse_border_color s = (0, 0, 0) := by
  rcases ht : pyStrip s.data with _ | ⟨c, rest⟩
  · simp only [parse_border_color, ht]
    decide
  · simp only [parse_border_color, border_color_parseable, ht] at h ⊢
    by_cases hc : c = '#'
    · subst hc
      simp only [if_pos rfl] at h ⊢
      exact rgb_of_hex_black_of_invalid _ _ _ (by
        simpa [Bool.and_assoc] using h)
    · simp only [if_neg hc] at h ⊢
      refine rgb_triple_of_black_of_invalid _ (fun hcon => ?_)
      rcases hcon with ⟨h1, h2⟩
      simp [h1, h2] at h

/-- Witness for the amended C7 theorem at the concrete input
`"not-a-color"`. -/
theorem parse_border_color_black_on_unparseable_witness :
    border_color_parseable "not-a-color" = false
    ∧ parse_border_color "not-a-color" = (0, 0, 0) :=
  ⟨by decide, parse_border_color_black_on_unparseable "not-a-color" (by decide)⟩

/-- C8: with a non-default configured model and size in the
environment, the module-level `openai_model`/`openai_size` pick the
configured values, but the request actually issued per card carries the
hard-coded literal `"gpt-image-1"` and the parameter default
`"1024x1024"` (the caller passes no `size`), so the configured values
never reach the service. -/
theorem generate_request_ignores_configuration :
    openai_model example_env = "dall-e-3"
    ∧ openai_size example_env = "512x512"
    ∧ (generate_request_for_prompt "an example prompt").model = "gpt-image-1"
    ∧ (generate_request_for_prompt "an example prompt").size = "1024x1024"
    ∧ (generate_request_for_prompt "an example prompt").prompt = "an example prompt"
    ∧ (generate_request_for_prompt "an example prompt").model ≠ openai_model example_env
    ∧ (generate_request_for_prompt "an example prompt").size ≠ openai_size example_env := by
  refine ⟨by decide, by decide, rfl, rfl, rfl, by decide, by decide⟩

/-- C9: with early-stop enabled, `generate_all_cards` writes exactly one
file, named `red_number_0-x1.png`, which is the filename of the deck's
first card. -/
theorem generate_all_cards_early_stop_single_file :
    generate_all_cards true = some ["red_number_0-x1.png"]
    ∧ (generate_all_cards true).map List.length = some 1
    ∧ build_uno_deck_cards.head? =
        some { color := "red", kind := "number", value := some 0, copy_index := 1 }
    ∧ filename_for { color := "red", kind := "number", value := some 0, copy_index := 1 }
        = "red_number_0-x1.png" := by
  refine ⟨by decide, by decide, by decide, by decide⟩

/-- C2: for a card of any of the four non-wild colors the concept is
independent of the modelled random draw (so equal card fields always
give the same concept); the color's theme list has length 10, a number
card with value `v` maps to `theme_items[v % 10]`, and any other kind
maps to `theme_items[copy_index % 10]`. -/
theorem concept_for_card_nonwild_deterministic (card : Card) (pick1 pick2 : Nat)
    (h : card.color ∈ colors) :
    concept_for_card pick1 card = concept_for_card pick2 card
    ∧ ∃ title items, COLOR_THEME card.color = some (title, items)
      ∧ items.length = 10
      ∧ (∀ v : Int, card.kind = "number" → card.value = some v →
          concept_for_card pick1 card
            = some (items.getD (v.emod (items.length : Int)).toNat ""))
      ∧ (card.kind ≠ "number" →
          concept_for_card pick1 card
            = some (items.getD (card.copy_index.emod (items.length : Int)).toNat "")) := by
  obtain ⟨color, kind, value, ci⟩ := card
  simp only [colors, List.mem_cons, List.not_mem_nil, or_false] at h
  rcases h with rfl | rfl | rfl | rfl <;>
    refine ⟨rfl, _, _, rfl, rfl, fun v hk hv => ?_, fun hk => ?_⟩ <;>
    simp_all [concept_for_card, COLOR_THEME]

/-- Witness for the C2 theorem at the red number-3 card and two
different random draws. -/
theorem concept_for_card_nonwild_deterministic_witness :
    concept_for_card 0 { color := "red", kind := "number", value := some 3, copy_index := 1 }
      = concept_for_card 5 { color := "red", kind := "number", value := some 3, copy_index := 1 } :=
  (concept_for_card_nonwild_deterministic
    { color := "red", kind := "number", value := some 3, copy_index := 1 } 0 5 (by decide)).1

/-- C10: for each of the four colors, the skip, reverse and draw2 cards
with the same copy index all receive the identical concept string, that
color's `theme_items[copy_index % 10]` — the kind is ignored. -/
theorem concept_for_card_ignores_action_kind (color : String) (ci : Int) (pick : Nat)
    (h : color ∈ colors) :
    ∃ title items, COLOR_THEME color = some (title, items)
      ∧ items.length = 10
      ∧ concept_for_card pick { color := color, kind := "skip", value := none, copy_index := ci }
          = some (items.getD (ci.emod 10).toNat "")
      ∧ concept_for_card pick { color := color, kind := "reverse", value := none, copy_index := ci }
          = some (items.getD (ci.emod 10).toNat "")
      ∧ concept_for_card pick { color := color, kind := "draw2", value := none, copy_index := ci }
          = some (items.getD (ci.emod 10).toNat "") := by
  simp only [colors, List.mem_cons, List.not_mem_nil, or_false] at h
  rcases h with rfl | rfl | rfl | rfl <;>
    exact ⟨_, _, rfl, rfl, rfl, rfl, rfl⟩

/-- Witness for the C10 theorem at the green action cards with copy
index 2. -/
theorem concept_for_card_ignores_action_kind_witness :
    ∃ title items, COLOR_THEME "green" = some (title, items)
      ∧ items.length = 10
      ∧ concept_for_card 0 { color := "green", kind := "skip", value := none, copy_index := 2 }
          = some (items.getD ((2 : Int).emod 10).toNat "")
      ∧ concept_for_card 0 { color := "green", kind := "reverse", value := none, copy_index := 2 }
          = some (items.getD ((2 : Int).emod 10).toNat "")
      ∧ concept_for_card 0 { color := "green", kind := "draw2", value := none, copy_index := 2 }
          = some (items.getD ((2 : Int).emod 10).toNat "") :=
  concept_for_card_ignores_action_kind "green" 2 0 (by decide)

end Uno
